import Mathlib

/-!
Shallow embedding of the document-store core of iatjc-rs
(src/text_store.rs and src/edit_session.rs).

The store owns a text buffer, a single advise-sink registration with an
interest mask, and a logical document lock state.  External callbacks
(the sink's OnTextChange / OnLockGranted) are modelled as recorded events:
each event carries the store's lock state at the moment the callback is
invoked, so ordering claims about lock release versus notification can be
stated.  Callback return values are supplied as oracle arguments.
-/

namespace IatjcRs

/-! ## Windows constants used by the code (values from the Windows SDK) -/

def TS_LF_SYNC : Nat := 0x1
def TS_LF_READ : Nat := 0x2
def TS_LF_READWRITE : Nat := 0x6
def TS_AS_TEXT_CHANGE : Nat := 0x1
def TS_ST_NONE : Nat := 0
def TS_RT_PLAIN : Nat := 0

def S_OK : Nat := 0
def E_NOTIMPL : Nat := 0x80004001
def E_UNEXPECTED : Nat := 0x8000FFFF
def E_INVALIDARG : Nat := 0x80070057
def TS_E_NOLOCK : Nat := 0x80040201
def TS_E_SYNCHRONOUS : Nat := 0x80040205
def CONNECT_E_ADVISELIMIT : Nat := 0x80040112

/-- `fn flag_check(value: u32, flag: u32) -> bool { (value & flag) == flag }` -/
def flag_check (value flag : Nat) : Bool :=
  value &&& flag == flag

/-! ## Lock model (text_store.rs) -/

/-- `enum LockType { None, Read, ReadWrite }` -/
inductive LockType where
  | noLock
  | read
  | readWrite
deriving DecidableEq, Repr

/-- `impl From<u32> for LockType` -/
def LockType.fromFlags (flags : Nat) : LockType :=
  if flag_check flags TS_LF_READWRITE then .readWrite
  else if flag_check flags TS_LF_READ then .read
  else .noLock

/-- `struct AdviceSink { text_store_sink: Option<ITextStoreACPSink>, mask: u32 }`.
The COM sink handle is modelled as an opaque numeric identifier. -/
structure AdviceSink where
  text_store_sink : Option Nat
  mask : Nat
deriving DecidableEq, Repr

/-- `TS_TEXTCHANGE { acpStart, acpOldEnd, acpNewEnd }` -/
structure TS_TEXTCHANGE where
  acpStart : Int
  acpOldEnd : Int
  acpNewEnd : Int
deriving DecidableEq, Repr

/-- A callback invocation on the registered sink, recorded together with the
store's lock state at the instant the callback is entered. -/
inductive Event where
  | onTextChange (lockStateAtCall : LockType × Nat) (dwFlags : Nat)
      (change : TS_TEXTCHANGE)
  | onLockGranted (lockStateAtCall : LockType × Nat) (flags : Nat)
deriving DecidableEq, Repr

/-- `struct TfTextStore`.  The Rust `String` is modelled as a list of text
units; `len()` is its length.  The atomic / mutex / rwlock wrappers collapse
to plain fields in this sequential model. -/
structure TfTextStore where
  ref_count : Int
  advice_sink : AdviceSink
  input_text : List Char
  lock_state : LockType × Nat
deriving DecidableEq, Repr

/-- `TfTextStore::new` -/
def TfTextStore.new : TfTextStore :=
  { ref_count := 1
    advice_sink := { text_store_sink := Option.none, mask := 0 }
    input_text := []
    lock_state := (LockType.noLock, 0) }

/-- `pub fn is_locked(&self, flags: u32) -> bool`:
`lock_state.0 != LockType::None && flag_check(lock_state.1, flags)` -/
def TfTextStore.is_locked (s : TfTextStore) (flags : Nat) : Bool :=
  decide (s.lock_state.1 ≠ LockType.noLock) && flag_check s.lock_state.2 flags

/-- `pub fn try_lock(&self, flags: u32) -> Result<LockGuard, ()>`:
succeeds only from `LockType::None`, storing `(LockType::from(flags), flags)`.
The returned guard is represented by success of the `Option`; its `Drop`
behaviour is `dropLockGuard`. -/
def TfTextStore.try_lock (s : TfTextStore) (flags : Nat) : Option TfTextStore :=
  if s.lock_state.1 = LockType.noLock then
    Option.some { s with lock_state := (LockType.fromFlags flags, flags) }
  else
    Option.none

/-- `impl Drop for LockGuard`: `*lock_state = (LockType::None, 0)` -/
def dropLockGuard (s : TfTextStore) : TfTextStore :=
  { s with lock_state := (LockType.noLock, 0) }

/-- `pub fn set_string(&self, text: &str) -> bool`.
Acquires the document lock via `try_lock(TS_LF_READWRITE)`; the guard
(`_lock`) lives until the end of the `if let` block, i.e. it is dropped only
after the `OnTextChange` notification.  The `input_text` RwLock write guard
is dropped (`drop(input_text)`) before the notification; in this sequential
model that drop has no observable effect on the store state.
Returns (store after the call, returned bool, recorded sink events). -/
def TfTextStore.set_string (s : TfTextStore) (text : List Char) :
    TfTextStore × Bool × List Event :=
  match s.try_lock TS_LF_READWRITE with
  | Option.some s1 =>
      let old_len : Int := s1.input_text.length
      let s2 := { s1 with input_text := text }
      let new_len : Int := s2.input_text.length
      let text_change : TS_TEXTCHANGE :=
        { acpStart := 0, acpOldEnd := old_len, acpNewEnd := new_len }
      let events :=
        if flag_check s2.advice_sink.mask TS_AS_TEXT_CHANGE then
          match s2.advice_sink.text_store_sink with
          | Option.some _ =>
              [Event.onTextChange s2.lock_state TS_ST_NONE text_change]
          | Option.none => []
        else []
      (dropLockGuard s2, true, events)
  | Option.none => (s, false, [])

/-! ## IUnknown reference counting (text_store.rs) -/

/-- Two's-complement wrap of a mathematical integer into the `i32` range. -/
def wrapI32 (n : Int) : Int :=
  (n + 2 ^ 31) % 2 ^ 32 - 2 ^ 31

/-- Reinterpretation of an `i32` value as `u32` (the `as u32` cast). -/
def toU32 (n : Int) : Nat :=
  (n % 2 ^ 32).toNat

/-- `fn AddRef(&self) -> u32`: `fetch_add(1)` returns the value held before
the increment, cast to `u32`. -/
def TfTextStore.AddRef (s : TfTextStore) : TfTextStore × Nat :=
  let old := s.ref_count
  ({ s with ref_count := wrapI32 (old + 1) }, toU32 old)

/-- `unsafe fn Release(&self) -> u32`:
`let count = fetch_sub(1) - 1;` — returns the value after the decrement. -/
def TfTextStore.Release (s : TfTextStore) : TfTextStore × Nat :=
  let old := s.ref_count
  let count := wrapI32 (old - 1)
  ({ s with ref_count := count }, toU32 count)

/-! ## ITextStoreACP implementation (text_store.rs) -/

/-- `fn AdviseSink(&self, riid, punk, mask)`.  `punk` is the caller-supplied
observer, modelled as an opaque handle; a null `punk` is `Option.none`.
When a sink is already stored, only the mask is assigned.  The
`CONNECT_E_ADVISELIMIT` arm reproduces the source's second (unreachable)
check.  The `punk.query(IID_ITextStoreACPSink, ..)` COM cast is modelled as
succeeding and yielding the handle itself. -/
def TfTextStore.AdviseSink (s : TfTextStore) (punk : Option Nat) (mask : Nat) :
    TfTextStore × Except Nat Unit :=
  match punk with
  | Option.none => (s, .error E_INVALIDARG)
  | Option.some p =>
      match s.advice_sink.text_store_sink with
      | Option.some _ =>
          ({ s with advice_sink := { s.advice_sink with mask := mask } }, .ok ())
      | Option.none =>
          if s.advice_sink.text_store_sink.isSome then
            (s, .error CONNECT_E_ADVISELIMIT)
          else
            ({ s with advice_sink := { text_store_sink := Option.some p, mask := mask } },
             .ok ())

/-- `fn UnadviseSink(&self, punk)`: clears the registration if one exists,
else `E_INVALIDARG`; the `punk` argument is not inspected. -/
def TfTextStore.UnadviseSink (s : TfTextStore) (_punk : Option Nat) :
    TfTextStore × Except Nat Unit :=
  match s.advice_sink.text_store_sink with
  | Option.some _ =>
      ({ s with advice_sink := { text_store_sink := Option.none, mask := 0 } }, .ok ())
  | Option.none => (s, .error E_INVALIDARG)

/-- `fn RequestLock(&self, dwlockflags) -> Result<HRESULT>`.
`cb` is the oracle for the sink's `OnLockGranted` return value.
Returns (store after the call, result, recorded sink events). -/
def TfTextStore.RequestLock (s : TfTextStore) (dwlockflags : Nat)
    (cb : Except Nat Unit) : TfTextStore × Except Nat Nat × List Event :=
  match s.advice_sink.text_store_sink with
  | Option.none => (s, .ok E_UNEXPECTED, [])
  | Option.some _ =>
      if s.lock_state.1 ≠ LockType.noLock then
        if flag_check dwlockflags TS_LF_SYNC then
          (s, .ok TS_E_SYNCHRONOUS, [])
        else
          (s, .ok E_NOTIMPL, [])
      else
        match s.try_lock dwlockflags with
        | Option.some s1 =>
            let ev := Event.onLockGranted s1.lock_state dwlockflags
            let res : Except Nat Nat :=
              match cb with
              | .ok _ => .ok S_OK
              | .error e => .error e
            (dropLockGuard s1, res, [ev])
        | Option.none => (s, .ok S_OK, [])

/-- The out-parameters written by `GetText`. -/
structure GetTextOut where
  plain : List Char
  cchplainret : Nat
  runCount : Nat
  runKind : Nat
  cruninforet : Nat
  acpnext : Int
deriving DecidableEq, Repr

/-- `fn GetText(&self, acpstart, acpend, pchplain, cchplainreq, ..)`.
Requires `is_locked(TS_LF_READ)`; copies
`min(text_len, cchplainreq)` units from the start of the buffer (the slice
taken is `src[0..copy_len]`), reports one plain run spanning the whole
buffer, and sets `*pacpnext = acpstart + text_len`.  `acpend` is not read.
All out-pointers are modelled as provided (non-null). -/
def TfTextStore.GetText (s : TfTextStore) (acpstart : Int) (_acpend : Int)
    (cchplainreq : Nat) : Except Nat GetTextOut :=
  if !(s.is_locked TS_LF_READ) then
    .error TS_E_NOLOCK
  else
    let text_len := s.input_text.length
    let copy_len := min text_len cchplainreq
    .ok { plain := s.input_text.take copy_len
          cchplainret := copy_len
          runCount := text_len
          runKind := TS_RT_PLAIN
          cruninforet := 1
          acpnext := acpstart + (text_len : Int) }

/-! ## Lock-state primitive steps (for the mutual-exclusion invariant)

The only places in the source that write `lock_state` are
`TfTextStore::try_lock` and `LockGuard::drop`; every public operation
manipulates the lock through these two primitives. -/

inductive LockPrim where
  | tryLockOp (flags : Nat)
  | dropGuardOp
deriving DecidableEq, Repr

/-- Effect of one lock-state primitive on the store: a failed `try_lock`
leaves the store unchanged. -/
def runLockPrim (op : LockPrim) (s : TfTextStore) : TfTextStore :=
  match op with
  | .tryLockOp flags => (s.try_lock flags).getD s
  | .dropGuardOp => dropLockGuard s

/-! ## Edit session (edit_session.rs) -/

/-- The `std::sync::mpsc::Sender<u32>` endpoint: a send fails exactly when
the receiver has been dropped. -/
structure Sender where
  receiver_connected : Bool
deriving DecidableEq, Repr

/-- `Sender::send`: `Err` iff the channel is disconnected. -/
def Sender.send (ch : Sender) (_msg : Nat) : Except Unit Unit :=
  if ch.receiver_connected then .ok () else .error ()

/-- `HRESULT::from_win32`: identity on zero and on values whose `i32`
reading is negative, else sets the WIN32 facility and failure bits. -/
def hresult_from_win32 (x : Nat) : Nat :=
  if x = 0 ∨ 2 ^ 31 ≤ x then x else (x &&& 0xFFFF) ||| 0x80070000

/-- `pub struct EditSession { sender: Sender<u32> }` -/
structure EditSession where
  sender : Sender
deriving DecidableEq, Repr

/-- `fn DoEditSession(&self, ec: u32) -> Result<()>`: forwards `ec` over the
channel; a failed send becomes
`Err(Error::new(HRESULT::from_win32(0), "Failed to send message"))`. -/
def EditSession.DoEditSession (es : EditSession) (ec : Nat) : Except Nat Unit :=
  match es.sender.send ec with
  | .error _ => .error (hresult_from_win32 0)
  | .ok _ => .ok ()

/-! ## Theorems -/

/-- C1 counterexample: on a store with a subscribed observer whose mask
includes the text-change bit, a successful `set_string` delivers its
`OnTextChange` notification while the document lock acquired for the
mutation is still held: the event records lock state
`(ReadWrite, TS_LF_READWRITE)`, not Unlocked, at the moment the handler is
invoked. -/
theorem c1_notify_while_locked_counterexample :
    (TfTextStore.set_string
        { ref_count := 1
          advice_sink := { text_store_sink := Option.some 1, mask := TS_AS_TEXT_CHANGE }
          input_text := []
          lock_state := (LockType.noLock, 0) }
        ['h', 'i']).2.1 = true ∧
    (TfTextStore.set_string
        { ref_count := 1
          advice_sink := { text_store_sink := Option.some 1, mask := TS_AS_TEXT_CHANGE }
          input_text := []
          lock_state := (LockType.noLock, 0) }
        ['h', 'i']).2.2 =
      [Event.onTextChange (LockType.readWrite, TS_LF_READWRITE) TS_ST_NONE
        { acpStart := 0, acpOldEnd := 0, acpNewEnd := 2 }] ∧
    LockType.readWrite ≠ LockType.noLock := by
  refine ⟨rfl, rfl, by decide⟩

/-- C1 (amended): a successful `set_string` on an unlocked store with a
subscribed observer whose mask includes the text-change bit delivers exactly
one `OnTextChange` event, invoked while the document lock is still held
(lock state `(ReadWrite, TS_LF_READWRITE)` at the call); the lock is reset
to Unlocked only when `set_string` returns, after the notification. -/
theorem c1_set_string_notifies_under_lock (s : TfTextStore) (text : List Char)
    (hunlocked : s.lock_state.1 = LockType.noLock)
    (hsink : s.advice_sink.text_store_sink.isSome = true)
    (hmask : flag_check s.advice_sink.mask TS_AS_TEXT_CHANGE = true) :
    s.set_string text =
      ({ s with input_text := text, lock_state := (LockType.noLock, 0) }, true,
       [Event.onTextChange (LockType.readWrite, TS_LF_READWRITE) TS_ST_NONE
         { acpStart := 0, acpOldEnd := (s.input_text.length : Int),
           acpNewEnd := (text.length : Int) }]) := by
  obtain ⟨rc, ⟨sink, mask⟩, text0, ⟨lt, lf⟩⟩ := s
  dsimp only at hunlocked hsink hmask
  subst hunlocked
  cases sink with
  | none => simp at hsink
  | some p =>
      simp only [flag_check] at hmask
      simp [TfTextStore.set_string, TfTextStore.try_lock, dropLockGuard, hmask,
        LockType.fromFlags, TS_LF_READWRITE, flag_check]

/-- C1 witness for `c1_set_string_notifies_under_lock`. -/
theorem c1_set_string_notifies_under_lock_witness :
    (TfTextStore.set_string
        { ref_count := 1
          advice_sink := { text_store_sink := Option.some 1, mask := TS_AS_TEXT_CHANGE }
          input_text := []
          lock_state := (LockType.noLock, 0) }
        ['h', 'i']) =
      ({ ref_count := 1
         advice_sink := { text_store_sink := Option.some 1, mask := TS_AS_TEXT_CHANGE }
         input_text := ['h', 'i']
         lock_state := (LockType.noLock, 0) }, true,
       [Event.onTextChange (LockType.readWrite, TS_LF_READWRITE) TS_ST_NONE
         { acpStart := 0, acpOldEnd := 0, acpNewEnd := 2 }]) :=
  c1_set_string_notifies_under_lock
    { ref_count := 1
      advice_sink := { text_store_sink := Option.some 1, mask := TS_AS_TEXT_CHANGE }
      input_text := []
      lock_state := (LockType.noLock, 0) }
    ['h', 'i'] rfl rfl (by decide)

/-- C2 counterexample: `AdviseSink` called while observer handle 7 is
registered, passing a different observer handle 9 and mask 4, succeeds but
keeps the stored handle 7 — it replaces only the mask, not the observer. -/
theorem c2_resubscribe_keeps_old_sink_counterexample :
    (TfTextStore.AdviseSink
        { ref_count := 1
          advice_sink := { text_store_sink := Option.some 7, mask := 1 }
          input_text := []
          lock_state := (LockType.noLock, 0) }
        (Option.some 9) 4) =
      ({ ref_count := 1
         advice_sink := { text_store_sink := Option.some 7, mask := 4 }
         input_text := []
         lock_state := (LockType.noLock, 0) }, .ok ()) ∧
    (Option.some 7 : Option Nat) ≠ Option.some 9 := by
  refine ⟨rfl, by decide⟩

/-- C2 (amended): a second `AdviseSink` call with a non-null observer always
succeeds (it never rejects) and replaces the stored interest mask with the
new value, but it leaves the stored observer handle unchanged: the
previously registered sink is kept and the new `punk` is ignored. -/
theorem c2_resubscribe_replaces_mask_only (s : TfTextStore) (p q mask : Nat)
    (hreg : s.advice_sink.text_store_sink = Option.some q) :
    s.AdviseSink (Option.some p) mask =
      ({ s with advice_sink := { text_store_sink := Option.some q, mask := mask } },
       .ok ()) := by
  obtain ⟨rc, ⟨sink, mask0⟩, text0, ls⟩ := s
  dsimp only at hreg
  subst hreg
  simp [TfTextStore.AdviseSink]

/-- C2 witness for `c2_resubscribe_replaces_mask_only`. -/
theorem c2_resubscribe_replaces_mask_only_witness :
    (TfTextStore.AdviseSink
        { ref_count := 1
          advice_sink := { text_store_sink := Option.some 7, mask := 1 }
          input_text := []
          lock_state := (LockType.noLock, 0) }
        (Option.some 9) 4) =
      ({ ref_count := 1
         advice_sink := { text_store_sink := Option.some 7, mask := 4 }
         input_text := []
         lock_state := (LockType.noLock, 0) }, .ok ()) :=
  c2_resubscribe_replaces_mask_only
    { ref_count := 1
      advice_sink := { text_store_sink := Option.some 7, mask := 1 }
      input_text := []
      lock_state := (LockType.noLock, 0) }
    9 7 4 rfl

/-- C5 counterexample: with content `abcde` and a Read lock held,
`GetText(acpstart = 3, acpend = 5, cchplainreq = 2)` copies `['a','b']` —
the first `min(5,2) = 2` units of the buffer — not the two units
`['d','e']` starting at offset 3 that the claim describes. -/
theorem c5_gettext_ignores_start_counterexample :
    (TfTextStore.GetText
        { ref_count := 1
          advice_sink := { text_store_sink := Option.none, mask := 0 }
          input_text := ['a', 'b', 'c', 'd', 'e']
          lock_state := (LockType.read, TS_LF_READ) }
        3 5 2) =
      .ok { plain := ['a', 'b'], cchplainret := 2, runCount := 5,
            runKind := TS_RT_PLAIN, cruninforet := 1, acpnext := 8 } ∧
    (['a', 'b'] : List Char) ≠ ['d', 'e'] := by
  refine ⟨rfl, by decide⟩

/-- C5 (amended): `GetText` fails with `TS_E_NOLOCK` when no compatible read
lock is held; when one is held it copies `min(content_length, cchplainreq)`
units taken from the start of the buffer (offset 0 — the `acpstart`
argument does not affect the copy), reports exactly one run covering the
whole content tagged plain, and sets `acpnext = acpstart + content_length`. -/
theorem c5_gettext_spec (s : TfTextStore) (acpstart acpend : Int)
    (cchplainreq : Nat) :
    (s.is_locked TS_LF_READ = false →
      s.GetText acpstart acpend cchplainreq = .error TS_E_NOLOCK) ∧
    (s.is_locked TS_LF_READ = true →
      s.GetText acpstart acpend cchplainreq =
        .ok { plain := s.input_text.take (min s.input_text.length cchplainreq)
              cchplainret := min s.input_text.length cchplainreq
              runCount := s.input_text.length
              runKind := TS_RT_PLAIN
              cruninforet := 1
              acpnext := acpstart + (s.input_text.length : Int) }) := by
  constructor
  · intro h
    simp [TfTextStore.GetText, h]
  · intro h
    simp [TfTextStore.GetText, h]

/-- C5 witness for `c5_gettext_spec`. -/
theorem c5_gettext_spec_witness :
    (TfTextStore.GetText
        { ref_count := 1
          advice_sink := { text_store_sink := Option.none, mask := 0 }
          input_text := ['a', 'b', 'c', 'd', 'e']
          lock_state := (LockType.read, TS_LF_READ) }
        3 5 2) =
      .ok { plain := ['a', 'b'], cchplainret := 2, runCount := 5,
            runKind := TS_RT_PLAIN, cruninforet := 1, acpnext := 8 } := by
  have h := (c5_gettext_spec
    { ref_count := 1
      advice_sink := { text_store_sink := Option.none, mask := 0 }
      input_text := ['a', 'b', 'c', 'd', 'e']
      lock_state := (LockType.read, TS_LF_READ) }
    3 5 2).2 (by decide)
  exact h.trans rfl

/-- C6: `set_string "hello"` on an empty document with an observer
subscribed under the text-change mask succeeds and delivers exactly one
text-change event `{start 0, old_end 0, new_end 5}`; afterwards, acquiring
a Read lock and calling `GetText(0, 5, 5)` yields `hello` with 5 units
copied. -/
theorem c6_replace_all_hello_end_to_end :
    ((TfTextStore.new.AdviseSink (Option.some 1) TS_AS_TEXT_CHANGE).1.set_string
      ['h', 'e', 'l', 'l', 'o']).2.1 = true ∧
    ((TfTextStore.new.AdviseSink (Option.some 1) TS_AS_TEXT_CHANGE).1.set_string
      ['h', 'e', 'l', 'l', 'o']).2.2 =
      [Event.onTextChange (LockType.readWrite, TS_LF_READWRITE) TS_ST_NONE
        { acpStart := 0, acpOldEnd := 0, acpNewEnd := 5 }] ∧
    (((TfTextStore.new.AdviseSink (Option.some 1) TS_AS_TEXT_CHANGE).1.set_string
      ['h', 'e', 'l', 'l', 'o']).1.try_lock TS_LF_READ) =
      Option.some
        { ref_count := 1
          advice_sink := { text_store_sink := Option.some 1, mask := TS_AS_TEXT_CHANGE }
          input_text := ['h', 'e', 'l', 'l', 'o']
          lock_state := (LockType.read, TS_LF_READ) } ∧
    (TfTextStore.GetText
        { ref_count := 1
          advice_sink := { text_store_sink := Option.some 1, mask := TS_AS_TEXT_CHANGE }
          input_text := ['h', 'e', 'l', 'l', 'o']
          lock_state := (LockType.read, TS_LF_READ) }
        0 5 5) =
      .ok { plain := ['h', 'e', 'l', 'l', 'o'], cchplainret := 5, runCount := 5,
            runKind := TS_RT_PLAIN, cruninforet := 1, acpnext := 5 } :=
  ⟨rfl, rfl, rfl, rfl⟩

/-- C7: when the receiver side of the edit-session channel is disconnected,
`DoEditSession` returns the send failure as its own error — it is never
surfaced as success. -/
theorem c7_do_edit_session_send_failure (es : EditSession) (ec : Nat)
    (hdisc : es.sender.receiver_connected = false) :
    es.DoEditSession ec = .error (hresult_from_win32 0) ∧
    ∀ u, es.DoEditSession ec ≠ .ok u := by
  obtain ⟨⟨conn⟩⟩ := es
  dsimp only at hdisc
  subst hdisc
  constructor
  · simp [EditSession.DoEditSession, Sender.send]
  · intro u
    simp [EditSession.DoEditSession, Sender.send]

/-- C7 witness for `c7_do_edit_session_send_failure`. -/
theorem c7_do_edit_session_send_failure_witness :
    (EditSession.DoEditSession { sender := { receiver_connected := false } } 42) =
      .error (hresult_from_win32 0) :=
  (c7_do_edit_session_send_failure
    { sender := { receiver_connected := false } } 42 rfl).1

/-- C3: on an unlocked store with a registered observer, `RequestLock` with
flags classifying to a real lock type acquires the lock, invokes
`OnLockGranted` exactly once while the lock is held (the recorded lock state
at the call is a non-None type), returns the store to Unlocked before the
call returns, and propagates a callback failure as the operation's own
result (`Ok(S_OK)` on callback success). -/
theorem c3_request_lock_grant (s : TfTextStore) (flags : Nat) (cb : Except Nat Unit)
    (hsink : s.advice_sink.text_store_sink.isSome = true)
    (hunlocked : s.lock_state.1 = LockType.noLock)
    (hreal : LockType.fromFlags flags ≠ LockType.noLock) :
    ∃ lt, lt ≠ LockType.noLock ∧
      (s.RequestLock flags cb).2.2 = [Event.onLockGranted (lt, flags) flags] ∧
      (s.RequestLock flags cb).1 = { s with lock_state := (LockType.noLock, 0) } ∧
      (s.RequestLock flags cb).2.1 = Except.map (fun _ => S_OK) cb := by
  obtain ⟨rc, ⟨sink, mask⟩, text0, ⟨lt0, lf⟩⟩ := s
  dsimp only at hsink hunlocked
  subst hunlocked
  cases sink with
  | none => simp at hsink
  | some p =>
      refine ⟨LockType.fromFlags flags, hreal, ?_, ?_, ?_⟩ <;>
        cases cb <;>
          simp [TfTextStore.RequestLock, TfTextStore.try_lock, dropLockGuard,
            Except.map]

/-- C3 witness for `c3_request_lock_grant`. -/
theorem c3_request_lock_grant_witness :
    ∃ lt, lt ≠ LockType.noLock ∧
      (TfTextStore.RequestLock
          { ref_count := 1
            advice_sink := { text_store_sink := Option.some 1, mask := 0 }
            input_text := []
            lock_state := (LockType.noLock, 0) }
          7 (.error 5)).2.2 = [Event.onLockGranted (lt, 7) 7] ∧
      (TfTextStore.RequestLock
          { ref_count := 1
            advice_sink := { text_store_sink := Option.some 1, mask := 0 }
            input_text := []
            lock_state := (LockType.noLock, 0) }
          7 (.error 5)).1 =
        { ref_count := 1
          advice_sink := { text_store_sink := Option.some 1, mask := 0 }
          input_text := []
          lock_state := (LockType.noLock, 0) } ∧
      (TfTextStore.RequestLock
          { ref_count := 1
            advice_sink := { text_store_sink := Option.some 1, mask := 0 }
            input_text := []
            lock_state := (LockType.noLock, 0) }
          7 (.error 5)).2.1 = Except.error 5 :=
  c3_request_lock_grant
    { ref_count := 1
      advice_sink := { text_store_sink := Option.some 1, mask := 0 }
      input_text := []
      lock_state := (LockType.noLock, 0) }
    7 (.error 5) rfl rfl (by decide)

/-- C4: `RequestLock` returns the `E_UNEXPECTED` status exactly when no
observer is registered; with an observer registered and the lock already
held it returns `TS_E_SYNCHRONOUS` when the request carries `TS_LF_SYNC`
and `E_NOTIMPL` otherwise, and in both busy cases the store (and so the
lock state) is left unchanged. -/
theorem c4_request_lock_failures (s : TfTextStore) (flags : Nat)
    (cb : Except Nat Unit) :
    (s.advice_sink.text_store_sink = Option.none →
      s.RequestLock flags cb = (s, .ok E_UNEXPECTED, [])) ∧
    (s.advice_sink.text_store_sink.isSome = true →
      s.lock_state.1 ≠ LockType.noLock →
      s.RequestLock flags cb =
        (s, .ok (if flag_check flags TS_LF_SYNC then TS_E_SYNCHRONOUS else E_NOTIMPL),
         [])) ∧
    ((s.RequestLock flags cb).2.1 = .ok E_UNEXPECTED ↔
      s.advice_sink.text_store_sink = Option.none) := by
  obtain ⟨rc, ⟨sink, mask⟩, text0, ⟨lt0, lf⟩⟩ := s
  refine ⟨?_, ?_, ?_⟩
  · intro h
    dsimp only at h
    subst h
    simp [TfTextStore.RequestLock]
  · intro hsink hlk
    dsimp only at hsink hlk
    cases sink with
    | none => simp at hsink
    | some p =>
        cases lt0 with
        | noLock => exact absurd rfl hlk
        | read =>
            by_cases hst : flag_check flags TS_LF_SYNC <;>
              simp [TfTextStore.RequestLock, hst]
        | readWrite =>
            by_cases hst : flag_check flags TS_LF_SYNC <;>
              simp [TfTextStore.RequestLock, hst]
  · cases sink with
    | none => simp [TfTextStore.RequestLock]
    | some p =>
        cases lt0 with
        | noLock =>
            cases cb <;>
              simp [TfTextStore.RequestLock, TfTextStore.try_lock, dropLockGuard,
                S_OK, E_UNEXPECTED]
        | read =>
            by_cases hst : flag_check flags TS_LF_SYNC <;>
              simp [TfTextStore.RequestLock, hst, TS_E_SYNCHRONOUS, E_NOTIMPL,
                E_UNEXPECTED]
        | readWrite =>
            by_cases hst : flag_check flags TS_LF_SYNC <;>
              simp [TfTextStore.RequestLock, hst, TS_E_SYNCHRONOUS, E_NOTIMPL,
                E_UNEXPECTED]

/-- C4 witness for `c4_request_lock_failures`: a store with no registered
observer answers `RequestLock` with the `E_UNEXPECTED` status. -/
theorem c4_request_lock_failures_witness :
    TfTextStore.new.RequestLock TS_LF_SYNC (.ok ()) =
      (TfTextStore.new, .ok E_UNEXPECTED, []) :=
  (c4_request_lock_failures TfTextStore.new TS_LF_SYNC (.ok ())).1 rfl

/-- C8: the lock state is manipulated only through `try_lock` and the
guard's drop, and for every primitive step: a `try_lock` issued while a
lock is held fails and acquires nothing (mutual exclusion — at most one
lock at any instant); a step that moves the state from Unlocked to held is
a successful `try_lock` yielding ReadLocked or ReadWriteLocked; and a step
that clears a held state is the guard's drop — the only path that clears
the lock state. -/
theorem c8_lock_state_machine (s : TfTextStore) (op : LockPrim) :
    (∀ flags, s.lock_state.1 ≠ LockType.noLock → s.try_lock flags = Option.none) ∧
    (s.lock_state.1 = LockType.noLock →
      (runLockPrim op s).lock_state.1 ≠ LockType.noLock →
      ∃ flags, op = LockPrim.tryLockOp flags ∧
        s.try_lock flags = Option.some (runLockPrim op s) ∧
        ((runLockPrim op s).lock_state.1 = LockType.read ∨
         (runLockPrim op s).lock_state.1 = LockType.readWrite)) ∧
    (s.lock_state.1 ≠ LockType.noLock →
      (runLockPrim op s).lock_state.1 = LockType.noLock →
      op = LockPrim.dropGuardOp) := by
  refine ⟨?_, ?_, ?_⟩
  · intro flags h
    simp [TfTextStore.try_lock, h]
  · intro h1 h2
    cases op with
    | dropGuardOp => simp [runLockPrim, dropLockGuard] at h2
    | tryLockOp flags =>
        refine ⟨flags, rfl, ?_, ?_⟩
        · simp [runLockPrim, TfTextStore.try_lock, h1]
        · simp only [runLockPrim, TfTextStore.try_lock, h1, if_pos,
            Option.getD_some] at h2 ⊢
          cases hf : LockType.fromFlags flags with
          | noLock => exact absurd hf h2
          | read => exact Or.inl rfl
          | readWrite => exact Or.inr rfl
  · intro h1 h2
    cases op with
    | dropGuardOp => rfl
    | tryLockOp flags =>
        simp [runLockPrim, TfTextStore.try_lock, h1] at h2

/-- C8 witness for `c8_lock_state_machine`: while a Read lock is held, a
further `try_lock` fails. -/
theorem c8_lock_state_machine_witness :
    TfTextStore.try_lock
        { ref_count := 1
          advice_sink := { text_store_sink := Option.none, mask := 0 }
          input_text := []
          lock_state := (LockType.read, TS_LF_READ) }
        TS_LF_READWRITE = Option.none :=
  (c8_lock_state_machine
      { ref_count := 1
        advice_sink := { text_store_sink := Option.none, mask := 0 }
        input_text := []
        lock_state := (LockType.read, TS_LF_READ) }
      LockPrim.dropGuardOp).1 TS_LF_READWRITE (by decide)

/-- C9: for flags containing neither the Read nor the ReadWrite bits,
`try_lock` on an unlocked store succeeds but records lock type None; while
that guard is alive `is_locked` is false for every argument; a
`RequestLock` with such flags invokes `OnLockGranted` while the store's
recorded lock type is None (the store reports itself unlocked), and a
`GetText` issued from the callback state fails with `TS_E_NOLOCK`. -/
theorem c9_degenerate_flags (flags : Nat) (s : TfTextStore) (cb : Except Nat Unit)
    (hrw : flag_check flags TS_LF_READWRITE = false)
    (hrd : flag_check flags TS_LF_READ = false)
    (hunlocked : s.lock_state.1 = LockType.noLock)
    (hsink : s.advice_sink.text_store_sink.isSome = true) :
    s.try_lock flags = Option.some { s with lock_state := (LockType.noLock, flags) } ∧
    (∀ g, TfTextStore.is_locked
        { s with lock_state := (LockType.noLock, flags) } g = false) ∧
    (s.RequestLock flags cb).2.2 =
      [Event.onLockGranted (LockType.noLock, flags) flags] ∧
    (∀ a b r, TfTextStore.GetText
        { s with lock_state := (LockType.noLock, flags) } a b r =
        .error TS_E_NOLOCK) := by
  have hf : LockType.fromFlags flags = LockType.noLock := by
    simp [LockType.fromFlags, hrw, hrd]
  obtain ⟨rc, ⟨sink, mask⟩, text0, ⟨lt0, lf⟩⟩ := s
  dsimp only at hunlocked hsink
  subst hunlocked
  refine ⟨?_, ?_, ?_, ?_⟩
  · simp [TfTextStore.try_lock, hf]
  · intro g
    simp [TfTextStore.is_locked]
  · cases sink with
    | none => simp at hsink
    | some p =>
        simp [TfTextStore.RequestLock, TfTextStore.try_lock, hf]
  · intro a b r
    simp [TfTextStore.GetText, TfTextStore.is_locked]

/-- C9 witness for `c9_degenerate_flags`, at `flags = TS_LF_SYNC`. -/
theorem c9_degenerate_flags_witness :
    TfTextStore.try_lock
        { ref_count := 1
          advice_sink := { text_store_sink := Option.some 1, mask := 0 }
          input_text := []
          lock_state := (LockType.noLock, 0) }
        TS_LF_SYNC =
      Option.some
        { ref_count := 1
          advice_sink := { text_store_sink := Option.some 1, mask := 0 }
          input_text := []
          lock_state := (LockType.noLock, TS_LF_SYNC) } ∧
    (∀ g, TfTextStore.is_locked
        { ref_count := 1
          advice_sink := { text_store_sink := Option.some 1, mask := 0 }
          input_text := []
          lock_state := (LockType.noLock, TS_LF_SYNC) } g = false) ∧
    (TfTextStore.RequestLock
        { ref_count := 1
          advice_sink := { text_store_sink := Option.some 1, mask := 0 }
          input_text := []
          lock_state := (LockType.noLock, 0) }
        TS_LF_SYNC (.ok ())).2.2 =
      [Event.onLockGranted (LockType.noLock, TS_LF_SYNC) TS_LF_SYNC] ∧
    (∀ a b r, TfTextStore.GetText
        { ref_count := 1
          advice_sink := { text_store_sink := Option.some 1, mask := 0 }
          input_text := []
          lock_state := (LockType.noLock, TS_LF_SYNC) } a b r =
        .error TS_E_NOLOCK) :=
  c9_degenerate_flags TS_LF_SYNC
    { ref_count := 1
      advice_sink := { text_store_sink := Option.some 1, mask := 0 }
      input_text := []
      lock_state := (LockType.noLock, 0) }
    (.ok ()) (by decide) (by decide) rfl rfl

/-- In the `i32` range, the two's-complement wrap is the identity. -/
theorem wrapI32_eq_self (n : Int) (h1 : -(2 ^ 31) ≤ n) (h2 : n < 2 ^ 31) :
    wrapI32 n = n := by
  have h3 : (0 : Int) ≤ n + 2 ^ 31 := by omega
  have h4 : n + 2 ^ 31 < 2 ^ 32 := by omega
  unfold wrapI32
  rw [Int.emod_eq_of_lt h3 h4]
  omega

/-- C10: in the absence of `i32` overflow, `AddRef` increments the count by
one and returns the pre-increment value (as `u32`), `Release` decrements by
one and returns the post-decrement value, and an `AddRef` immediately
followed by a `Release` restores the original count with both calls
returning the same value. -/
theorem c10_refcount (s : TfTextStore)
    (hlo : -(2 ^ 31) < s.ref_count) (hhi : s.ref_count + 1 < 2 ^ 31) :
    (s.AddRef).1.ref_count = s.ref_count + 1 ∧
    (s.AddRef).2 = toU32 s.ref_count ∧
    (s.Release).1.ref_count = s.ref_count - 1 ∧
    (s.Release).2 = toU32 (s.ref_count - 1) ∧
    ((s.AddRef).1.Release).1.ref_count = s.ref_count ∧
    ((s.AddRef).1.Release).2 = (s.AddRef).2 := by
  have e0 : wrapI32 s.ref_count = s.ref_count :=
    wrapI32_eq_self _ (by omega) (by omega)
  have e1 : wrapI32 (s.ref_count + 1) = s.ref_count + 1 :=
    wrapI32_eq_self _ (by omega) (by omega)
  have e2 : wrapI32 (s.ref_count - 1) = s.ref_count - 1 :=
    wrapI32_eq_self _ (by omega) (by omega)
  refine ⟨?_, rfl, ?_, ?_, ?_, ?_⟩
  · simp [TfTextStore.AddRef, e1]
  · simp [TfTextStore.Release, e2]
  · simp [TfTextStore.Release, e2]
  · simp [TfTextStore.AddRef, TfTextStore.Release, e1, e0]
  · simp [TfTextStore.AddRef, TfTextStore.Release, e1, e0]

/-- C10 witness for `c10_refcount`, at the freshly constructed store. -/
theorem c10_refcount_witness :
    (TfTextStore.new.AddRef).1.ref_count = TfTextStore.new.ref_count + 1 ∧
    (TfTextStore.new.AddRef).2 = toU32 TfTextStore.new.ref_count ∧
    (TfTextStore.new.Release).1.ref_count = TfTextStore.new.ref_count - 1 ∧
    (TfTextStore.new.Release).2 = toU32 (TfTextStore.new.ref_count - 1) ∧
    ((TfTextStore.new.AddRef).1.Release).1.ref_count = TfTextStore.new.ref_count ∧
    ((TfTextStore.new.AddRef).1.Release).2 = (TfTextStore.new.AddRef).2 :=
  c10_refcount TfTextStore.new (by decide) (by decide)

end IatjcRs
